import Mathlib

/-!
Formal model of the dashboard client core: the periodic aggregation cycle
(`Dashboard.loadDashboardData`) and the push-connection client
(`WebSocketService`), translated from the TypeScript source.

Conventions of the embedding:
* REST fetches are passed in as `Except String` values / functions: `.ok v` is a
  resolved promise, `.error msg` is a rejected promise whose message is `msg`.
* React `useState` setters are modelled by explicit state passing: one call of
  `loadDashboardData` maps the component state before the cycle to the state
  after it.
* `Task.created_at` is modelled by its epoch-millisecond value, i.e. the number
  the source obtains as `new Date(task.created_at).getTime()`; the dashboard
  consumes the timestamp only through that conversion.
* `JavaScript Array.prototype.sort` with comparator
  `(a, b) => timeB - timeA` is a stable sort by descending timestamp; it is
  modelled by `List.insertionSort` with the total preorder `createdDesc`
  (stable sorts under a total preorder agree on their output).
-/

namespace AgentPlatform

/-- String constants used by the source (kept as named definitions). -/
def statusRunning : String := "running"

def statusIdle : String := "idle"

def statusCompleted : String := "completed"

def statusFailed : String := "failed"

/-- Agent record, from the `Agent` interface of the API module. -/
structure Agent where
  id : String
  name : String
  description : Option String
  type : String
  capabilities : List String
  resources : List (String × String)
  parameters : Option (List (String × String))
  status : String
  created_at : String
  updated_at : String
deriving DecidableEq

/-- Task record, from the `Task` interface of the API module.  The timestamps
`created_at` and `updated_at` are modelled by their epoch-millisecond values
(the dashboard reads them only via `new Date(s).getTime()`). -/
structure Task where
  id : String
  agent_id : String
  task_type : String
  parameters : List (String × String)
  status : String
  result : Option (List (String × String))
  error_message : Option String
  created_at : Int
  updated_at : Int
  started_at : Option Int
  completed_at : Option Int
deriving DecidableEq

/-- Health record, from the `HealthStatus` interface of the API module. -/
structure HealthStatus where
  status : String
  timestamp : String
  service : String
  database : Option String
  error : Option String
deriving DecidableEq

/-- The `DashboardStats` interface of the Dashboard component. -/
structure DashboardStats where
  totalAgents : Nat
  activeAgents : Nat
  totalTasks : Nat
  completedTasks : Nat
  failedTasks : Nat
  runningTasks : Nat
deriving DecidableEq

/-- The `useState` cells of the Dashboard component that `loadDashboardData`
reads or writes: `stats`, `agents`, `recentTasks`, `loading`, `error`,
`healthStatus`. -/
structure DashboardState where
  stats : DashboardStats
  agents : List Agent
  recentTasks : List Task
  loading : Bool
  error : Option String
  healthStatus : Option HealthStatus
deriving DecidableEq

/-- Initial values of the Dashboard component state cells. -/
def initialDashboardState : DashboardState :=
  { stats := ⟨0, 0, 0, 0, 0, 0⟩
    agents := []
    recentTasks := []
    loading := true
    error := none
    healthStatus := none }

/-- Comparator order used on tasks: the source sorts with
`(a, b) => new Date(b.created_at).getTime() - new Date(a.created_at).getTime()`,
i.e. descending by creation time.  `createdDesc a b` says `a` may come before
`b` in the sorted output. -/
def createdDesc (a b : Task) : Prop := b.created_at ≤ a.created_at

instance : DecidableRel createdDesc := fun a b => Int.decLe b.created_at a.created_at

instance : IsTotal Task createdDesc where
  total a b := le_total b.created_at a.created_at

instance : IsTrans Task createdDesc where
  trans _ _ _ hab hbc := le_trans hbc hab

/-- The per-agent fan-out loop of `loadDashboardData`: starting from
`allTasks = []`, for each agent in order, `try { push(...await getAgentTasks(agent.id)) }
catch { console.warn(...) }` — a failed fetch contributes nothing and does not
abort the loop. -/
def mergedTasks (agentsData : List Agent)
    (fetchAgentTasks : String → Except String (List Task)) : List Task :=
  agentsData.foldl
    (fun allTasks agent =>
      match fetchAgentTasks agent.id with
      | .ok agentTasks => allTasks ++ agentTasks
      | .error _ => allTasks)
    []

/-- One agent's contribution to the merge: its fetched task list on success,
`[]` on failure. -/
def taskContribution (fetchAgentTasks : String → Except String (List Task))
    (agent : Agent) : List Task :=
  match fetchAgentTasks agent.id with
  | .ok agentTasks => agentTasks
  | .error _ => []

/-- One run of `Dashboard.loadDashboardData`.  Arguments are the results of the
three kinds of REST calls the cycle performs (`GET /agents`, per-agent
`GET /agents/{id}/tasks`, `GET /health`) and the component state before the
run; the result is the component state after the run.

Translation notes, following the source line by line:
* the outer `try`: if `agentApi.getAgents()` rejects, control jumps to the
  outer `catch`, which only does `setError(message)`; the `finally` does
  `setLoading(false)`; no other state cell is written;
* on success: `setAgents`, the per-agent loop (`mergedTasks`), the stable
  descending sort, `setRecentTasks(sorted.slice(0, 10))`, the six counters,
  `setStats`, and the inner `try` around `healthApi.getHealth()` whose
  `catch` only warns, leaving the `healthStatus` cell untouched;
* `setError(null)` ran at the top, so a successful run leaves `error = none`. -/
def loadDashboardData (fetchAgents : Except String (List Agent))
    (fetchAgentTasks : String → Except String (List Task))
    (fetchHealth : Except String HealthStatus)
    (s : DashboardState) : DashboardState :=
  match fetchAgents with
  | .error e => { s with error := some e, loading := false }
  | .ok agentsData =>
      let allTasks := mergedTasks agentsData fetchAgentTasks
      let sortedTasks := List.insertionSort createdDesc allTasks
      let recentTasks := sortedTasks.take 10
      let totalAgents := agentsData.length
      let activeAgents :=
        (agentsData.filter fun agent => [statusRunning, statusIdle].contains agent.status).length
      let totalTasks := allTasks.length
      let completedTasks := (allTasks.filter fun task => task.status == statusCompleted).length
      let failedTasks := (allTasks.filter fun task => task.status == statusFailed).length
      let runningTasks := (allTasks.filter fun task => task.status == statusRunning).length
      let healthStatus :=
        match fetchHealth with
        | .ok health => some health
        | .error _ => s.healthStatus
      { stats :=
          ⟨totalAgents, activeAgents, totalTasks, completedTasks, failedTasks, runningTasks⟩
        agents := agentsData
        recentTasks := recentTasks
        loading := false
        error := none
        healthStatus := healthStatus }

namespace WebSocketService

/-- The `listeners : Map<string, Function[]>` field of `WebSocketService`,
modelled extensionally: the callback array stored for each event type (an
absent map entry and an empty array are indistinguishable to every method of
the class).  Callbacks are identified by opaque numeric identities, matching
the reference-identity comparison `indexOf` performs. -/
abbrev Registry := String → List Nat

/-- Registry with no listeners. -/
def emptyRegistry : Registry := fun _ => []

/-- Method `subscribe(eventType, callback)`: create the entry if absent, then
`push` the callback — appended at the end, duplicates allowed. -/
def subscribe (reg : Registry) (eventType : String) (callback : Nat) : Registry :=
  fun t => if t = eventType then reg eventType ++ [callback] else reg t

/-- The `indexOf`/`splice(index, 1)` pair of `unsubscribe`: remove the first
occurrence, no-op if absent. -/
def removeFirst : List Nat → Nat → List Nat
  | [], _ => []
  | x :: xs, callback => if x = callback then xs else x :: removeFirst xs callback

/-- Method `unsubscribe(eventType, callback)`: remove the first matching
callback of that event type; no-op when the callback or the entry is absent. -/
def unsubscribe (reg : Registry) (eventType : String) (callback : Nat) : Registry :=
  fun t => if t = eventType then removeFirst (reg eventType) callback else reg t

/-- A single registry mutation a callback may perform while it runs. -/
inductive RegOp where
  | sub (eventType : String) (callback : Nat)
  | unsub (eventType : String) (callback : Nat)
deriving DecidableEq

/-- Effect of one registry mutation. -/
def applyOp (reg : Registry) : RegOp → Registry
  | .sub t c => subscribe reg t c
  | .unsub t c => unsubscribe reg t c

/-- Observable behaviour of a callback when invoked: the registry mutations it
performs, in order, and whether it then raises an exception.  (A raising
callback is modelled as performing its mutations before the raise.) -/
structure CbBeh where
  ops : List RegOp
  raises : Bool
deriving DecidableEq

/-- Effect of a callback body on the registry. -/
def applyOps (ops : List RegOp) (reg : Registry) : Registry :=
  ops.foldl applyOp reg

/-- Whether a registry mutation is a `subscribe`. -/
def isSub : RegOp → Bool
  | .sub _ _ => true
  | .unsub _ _ => false

/-- A callback behaviour that only subscribes (never unsubscribes) and does
not raise. -/
def subsOnly (b : CbBeh) : Bool := b.ops.all isSub && !b.raises

/-- Result of one `onmessage` dispatch pass: the registry afterwards, the
callbacks invoked in order, and whether the surrounding `catch` block caught
an exception (and reported it via `console.error`). -/
structure DispatchResult where
  reg : Registry
  invoked : List Nat
  errorLogged : Bool

/-- The `listeners.forEach(listener => listener(data))` loop of the
`onmessage` handler, which iterates the live array stored in the map (the
handler takes no copy).  Following the `Array.prototype.forEach` contract:
the length is read once at the start (`fuel` counts the remaining of those
initially-counted iterations), each index `k` is re-read from the current
array, and indices at or beyond the current length are skipped (`splice`
leaves no holes).  A raised exception aborts the loop and lands in the
handler's `catch`. -/
def dispatchLoop (beh : Nat → CbBeh) (topic : String) :
    Nat → Nat → Registry → List Nat → DispatchResult
  | 0, _, reg, invoked => ⟨reg, invoked, false⟩
  | fuel + 1, k, reg, invoked =>
    let arr := reg topic
    if h : k < arr.length then
      let c := arr.get ⟨k, h⟩
      let reg1 := applyOps (beh c).ops reg
      if (beh c).raises then ⟨reg1, invoked ++ [c], true⟩
      else dispatchLoop beh topic fuel (k + 1) reg1 (invoked ++ [c])
    else dispatchLoop beh topic fuel (k + 1) reg invoked

/-- One dispatch pass of the `onmessage` handler for a frame whose parsed
`type` is `topic`: `const listeners = this.listeners.get(type) || [];
listeners.forEach(listener => listener(data))`, all inside the handler's
`try`/`catch`.  `beh` gives each callback's behaviour when invoked. -/
def dispatch (beh : Nat → CbBeh) (reg : Registry) (topic : String) : DispatchResult :=
  dispatchLoop beh topic (reg topic).length 0 reg []

/-- Connection-lifecycle state of one `WebSocketService` instance together
with the queues of its environment (the browser event loop):

* `wsAttached` — whether `this.ws` is non-null;
* `socketsAwaitingClose` — sockets constructed by `connect()` whose `onclose`
  handler has not yet fired (each socket fires it exactly once, whether the
  service or the server closed it);
* `pendingReconnects` — `setTimeout(() => this.connect(), 5000)` callbacks
  scheduled by `onclose` and not yet elapsed;
* `transportsOpened` — running count of `new WebSocket(wsUrl)` constructions;
* `autoReconnects` — running count of `connect()` invocations made by the
  reconnect timer rather than by a caller. -/
structure WSWorld where
  wsAttached : Bool
  socketsAwaitingClose : Nat
  pendingReconnects : Nat
  transportsOpened : Nat
  autoReconnects : Nat
deriving DecidableEq

/-- A fresh `WebSocketService` instance: `ws = null`, nothing scheduled. -/
def initWSWorld : WSWorld := ⟨false, 0, 0, 0, 0⟩

/-- Method `connect()`: unconditionally constructs `new WebSocket(wsUrl)`,
assigns it to `this.ws` and installs the handlers (the source checks no state
before doing so).  The `onopen` and `onerror` handlers only log, so they need
no further model. -/
def connect (w : WSWorld) : WSWorld :=
  { w with
    wsAttached := true
    socketsAwaitingClose := w.socketsAwaitingClose + 1
    transportsOpened := w.transportsOpened + 1 }

/-- Method `disconnect()`: `if (this.ws) { this.ws.close(); this.ws = null }`.
The close is asynchronous — the socket keeps its `onclose` handler and will
still fire it — and no timer is cancelled and no flag is set. -/
def disconnect (w : WSWorld) : WSWorld :=
  if w.wsAttached then { w with wsAttached := false } else w

/-- The `onclose` handler firing on one of the constructed sockets: it logs
and unconditionally schedules `setTimeout(() => this.connect(), 5000)`. -/
def closeFired (w : WSWorld) : WSWorld :=
  if 0 < w.socketsAwaitingClose then
    { w with
      socketsAwaitingClose := w.socketsAwaitingClose - 1
      pendingReconnects := w.pendingReconnects + 1 }
  else w

/-- One of the scheduled 5000 ms reconnect timers elapsing: its callback
invokes `this.connect()`. -/
def reconnectTimerFired (w : WSWorld) : WSWorld :=
  if 0 < w.pendingReconnects then
    connect
      { w with
        pendingReconnects := w.pendingReconnects - 1
        autoReconnects := w.autoReconnects + 1 }
  else w

/-- Event-type string used in the concrete dispatch examples (the push frame
discriminant `agent_status`). -/
def topicAgentStatus : String := "agent_status"

/-- Registry holding two callbacks on one topic, the first of which
unsubscribes itself when invoked. -/
def regSelfUnsub : Registry :=
  subscribe (subscribe emptyRegistry topicAgentStatus 0) topicAgentStatus 1

/-- Behaviour environment in which callback 0 unsubscribes itself and no other
callback does anything. -/
def behSelfUnsub : Nat → CbBeh :=
  fun c => if c = 0 then ⟨[RegOp.unsub topicAgentStatus 0], false⟩ else ⟨[], false⟩

/-- Registry holding two harmless callbacks on one topic. -/
def regHarmless : Registry :=
  subscribe (subscribe emptyRegistry topicAgentStatus 3) topicAgentStatus 4

/-- Behaviour environment in which no callback mutates anything or raises. -/
def behHarmless : Nat → CbBeh := fun _ => ⟨[], false⟩

/-- Registry holding two callbacks on one topic, the first of which raises. -/
def regFirstRaises : Registry :=
  subscribe (subscribe emptyRegistry topicAgentStatus 0) topicAgentStatus 1

/-- Behaviour environment in which callback 0 raises an exception. -/
def behFirstRaises : Nat → CbBeh :=
  fun c => if c = 0 then ⟨[], true⟩ else ⟨[], false⟩

/-- Registry holding three callbacks on one topic, used to exercise a raise in
the middle of a pass. -/
def regMidRaises : Registry :=
  subscribe (subscribe (subscribe emptyRegistry topicAgentStatus 7) topicAgentStatus 9)
    topicAgentStatus 8

/-- Behaviour environment in which callback 9 raises an exception. -/
def behMidRaises : Nat → CbBeh :=
  fun c => if c = 9 then ⟨[], true⟩ else ⟨[], false⟩

end WebSocketService

/-- Agent status string used by the scenario fixtures. -/
def statusStopped : String := "stopped"

/-- Scenario agent A1 (status `running`). -/
def agentA1 : Agent :=
  { id := "a1"
    name := "Agent One"
    description := none
    type := "autonomous"
    capabilities := []
    resources := []
    parameters := none
    status := statusRunning
    created_at := "2024-01-01T00:00:00Z"
    updated_at := "2024-01-01T00:00:00Z" }

/-- Scenario agent A2 (status `stopped`). -/
def agentA2 : Agent :=
  { id := "a2"
    name := "Agent Two"
    description := none
    type := "reactive"
    capabilities := []
    resources := []
    parameters := none
    status := statusStopped
    created_at := "2024-01-01T00:00:00Z"
    updated_at := "2024-01-01T00:00:00Z" }

/-- Scenario task T1 of agent A1: completed, created at time 1000. -/
def taskT1 : Task :=
  { id := "t1"
    agent_id := "a1"
    task_type := "analysis"
    parameters := []
    status := statusCompleted
    result := none
    error_message := none
    created_at := 1000
    updated_at := 1500
    started_at := some 1100
    completed_at := some 1500 }

/-- Scenario task T2 of agent A1: running, created at time 2000 (more recent
than T1). -/
def taskT2 : Task :=
  { id := "t2"
    agent_id := "a1"
    task_type := "analysis"
    parameters := []
    status := statusRunning
    result := none
    error_message := none
    created_at := 2000
    updated_at := 2100
    started_at := some 2100
    completed_at := none }

/-- Failure message of an unreachable per-agent task endpoint. -/
def unreachableMsg : String := "Unreachable"

/-- Scenario per-agent task fetch: A1 resolves with [T1, T2], every other
agent's fetch rejects. -/
def scenarioFetchTasks : String → Except String (List Task) :=
  fun agentId => if agentId = agentA1.id then .ok [taskT1, taskT2] else .error unreachableMsg

/-- Health value present before a cycle, used to exhibit carry-over. -/
def healthPrev : HealthStatus :=
  { status := "healthy"
    timestamp := "2024-01-01T00:00:00Z"
    service := "api-gateway"
    database := none
    error := none }

/-- Component state in which an earlier cycle already stored a health value. -/
def statePrevHealth : DashboardState :=
  { initialDashboardState with healthStatus := some healthPrev }

/-- Failure message of a rejected health fetch. -/
def healthDownMsg : String := "health down"

theorem foldl_tasks_eq (ft : String → Except String (List Task)) :
    ∀ (agentsData : List Agent) (init : List Task),
      agentsData.foldl
          (fun allTasks agent =>
            match ft agent.id with
            | .ok agentTasks => allTasks ++ agentTasks
            | .error _ => allTasks)
          init
        = init ++ (agentsData.map (taskContribution ft)).flatten := by
  intro agentsData
  induction agentsData with
  | nil => intro init; simp
  | cons a l ih =>
    intro init
    rw [List.foldl_cons, ih]
    cases hfa : ft a.id with
    | ok ts => simp [taskContribution, hfa, List.append_assoc]
    | error e => simp [taskContribution, hfa]

/-- The fan-out loop collects, in agent order, exactly the per-agent
contributions: a succeeding agent's fetched list, a failing agent's `[]`. -/
theorem mergedTasks_eq_flatten (agentsData : List Agent)
    (ft : String → Except String (List Task)) :
    mergedTasks agentsData ft = (agentsData.map (taskContribution ft)).flatten := by
  unfold mergedTasks
  simpa using foldl_tasks_eq ft agentsData []

theorem filter_orderedInsert_of_pos (a : Task) (l : List Task) :
    (List.orderedInsert createdDesc a l).filter
        (fun x => x.created_at == a.created_at) =
      a :: l.filter (fun x => x.created_at == a.created_at) := by
  induction l with
  | nil => simp [List.orderedInsert]
  | cons b l ih =>
    rw [List.orderedInsert]
    by_cases h : createdDesc a b
    · rw [if_pos h]
      simp [List.filter_cons]
    · rw [if_neg h]
      have hb : (b.created_at == a.created_at) = false := by
        rw [beq_eq_false_iff_ne]
        intro hEq
        exact h (le_of_eq hEq)
      simp [List.filter_cons, hb, ih]

theorem filter_orderedInsert_of_neg (p : Task → Bool) (a : Task) (l : List Task)
    (ha : p a = false) :
    (List.orderedInsert createdDesc a l).filter p = l.filter p := by
  induction l with
  | nil => simp [List.orderedInsert, ha]
  | cons b l ih =>
    rw [List.orderedInsert]
    by_cases h : createdDesc a b
    · rw [if_pos h]
      simp [List.filter_cons, ha]
    · rw [if_neg h]
      simp [List.filter_cons, ih]

/-- Stability of the model sort: the tasks sharing any one creation timestamp
come out of the sort in their original (fetch) order. -/
theorem filter_insertionSort_key (t : Int) (l : List Task) :
    (List.insertionSort createdDesc l).filter (fun x => x.created_at == t) =
      l.filter (fun x => x.created_at == t) := by
  induction l with
  | nil => rfl
  | cons a l ih =>
    rw [List.insertionSort]
    by_cases h : a.created_at = t
    · subst h
      rw [filter_orderedInsert_of_pos, ih]
      simp [List.filter_cons]
    · have ha : (a.created_at == t) = false := by simp [h]
      rw [filter_orderedInsert_of_neg _ a _ ha, ih]
      simp [List.filter_cons, ha]

/-- Claim C4: if the mandatory agent-set fetch fails, the cycle produces no
new snapshot — the previous stats, recent tasks, agents and health are left
unchanged and only the cycle-level error (and the loading flag) is written;
and a subsequent successful cycle recovers normally: its published stats and
recent tasks are computed fresh, independent of the stale state, with the
error cleared. -/
theorem agent_fetch_failure_keeps_snapshot :
    (∀ (e : String) (ft : String → Except String (List Task))
        (fh : Except String HealthStatus) (s : DashboardState),
      loadDashboardData (.error e) ft fh s = { s with error := some e, loading := false }) ∧
    (∀ (agentsData : List Agent) (ft : String → Except String (List Task))
        (fh : Except String HealthStatus) (s t : DashboardState),
      (loadDashboardData (.ok agentsData) ft fh s).stats =
          (loadDashboardData (.ok agentsData) ft fh t).stats ∧
      (loadDashboardData (.ok agentsData) ft fh s).recentTasks =
          (loadDashboardData (.ok agentsData) ft fh t).recentTasks ∧
      (loadDashboardData (.ok agentsData) ft fh s).error = none) :=
  ⟨fun _ _ _ _ => rfl, fun _ _ _ _ _ => ⟨rfl, rfl, rfl⟩⟩

/-- Claim C5: per-agent task-fetch failures never abort the cycle — a run with
a successful agent-set fetch always publishes (error is cleared), and the
merged task list is exactly the concatenation, in agent order, of the
per-agent contributions, where a failing agent contributes `[]` (so with K of
N agents failing, the merge holds exactly the tasks of the other N−K). -/
theorem partial_task_failures_tolerated
    (agentsData : List Agent) (ft : String → Except String (List Task))
    (fh : Except String HealthStatus) (s : DashboardState) :
    (loadDashboardData (.ok agentsData) ft fh s).error = none ∧
    mergedTasks agentsData ft = (agentsData.map (taskContribution ft)).flatten ∧
    (loadDashboardData (.ok agentsData) ft fh s).recentTasks =
      (List.insertionSort createdDesc (mergedTasks agentsData ft)).take 10 :=
  ⟨rfl, mergedTasks_eq_flatten agentsData ft, rfl⟩

/-- Claim C6: in every published snapshot the recent-task list has length at
most 10, is sorted by creation timestamp non-increasing, is the 10-entry
truncation of the sorted merged task sequence, and the sort is stable — tasks
with equal creation timestamps keep their fetch order. -/
theorem recentTasks_sorted_truncated
    (agentsData : List Agent) (ft : String → Except String (List Task))
    (fh : Except String HealthStatus) (s : DashboardState) :
    (loadDashboardData (.ok agentsData) ft fh s).recentTasks.length ≤ 10 ∧
    List.Sorted createdDesc (loadDashboardData (.ok agentsData) ft fh s).recentTasks ∧
    (loadDashboardData (.ok agentsData) ft fh s).recentTasks =
      (List.insertionSort createdDesc (mergedTasks agentsData ft)).take 10 ∧
    (∀ t : Int,
      (List.insertionSort createdDesc (mergedTasks agentsData ft)).filter
          (fun task => task.created_at == t) =
        (mergedTasks agentsData ft).filter (fun task => task.created_at == t)) := by
  refine ⟨?_, ?_, rfl, fun t => filter_insertionSort_key t _⟩
  · show ((List.insertionSort createdDesc (mergedTasks agentsData ft)).take 10).length ≤ 10
    exact List.length_take_le 10 _
  · show List.Pairwise createdDesc
      ((List.insertionSort createdDesc (mergedTasks agentsData ft)).take 10)
    exact List.Pairwise.sublist (List.take_sublist 10 _)
      (List.sorted_insertionSort createdDesc (mergedTasks agentsData ft))

/-- Claim C7: the snapshot counters are computed from the full agent set and
the full untruncated merged task list — totalAgents is the agent count,
activeAgents counts status in {running, idle}, totalTasks is the merge size,
and completed/failed/running count tasks by status; and on the concrete
scenario (A1 running with tasks T1 completed and T2 running, A2 stopped with
a failing task fetch) the published snapshot is totalAgents=2, activeAgents=1,
totalTasks=2, completedTasks=1, failedTasks=0, runningTasks=1 with
recentTasks = [T2, T1]. -/
theorem counters_from_full_merge_and_scenario :
    (∀ (agentsData : List Agent) (ft : String → Except String (List Task))
        (fh : Except String HealthStatus) (s : DashboardState),
      (loadDashboardData (.ok agentsData) ft fh s).stats.totalAgents = agentsData.length ∧
      (loadDashboardData (.ok agentsData) ft fh s).stats.activeAgents =
          (agentsData.filter fun agent =>
            [statusRunning, statusIdle].contains agent.status).length ∧
      (loadDashboardData (.ok agentsData) ft fh s).stats.totalTasks =
          (mergedTasks agentsData ft).length ∧
      (loadDashboardData (.ok agentsData) ft fh s).stats.completedTasks =
          ((mergedTasks agentsData ft).filter fun task =>
            task.status == statusCompleted).length ∧
      (loadDashboardData (.ok agentsData) ft fh s).stats.failedTasks =
          ((mergedTasks agentsData ft).filter fun task =>
            task.status == statusFailed).length ∧
      (loadDashboardData (.ok agentsData) ft fh s).stats.runningTasks =
          ((mergedTasks agentsData ft).filter fun task =>
            task.status == statusRunning).length) ∧
    (∀ (fh : Except String HealthStatus) (s : DashboardState),
      (loadDashboardData (.ok [agentA1, agentA2]) scenarioFetchTasks fh s).stats =
          ⟨2, 1, 2, 1, 0, 1⟩ ∧
      (loadDashboardData (.ok [agentA1, agentA2]) scenarioFetchTasks fh s).recentTasks =
          [taskT2, taskT1]) :=
  ⟨fun _ _ _ _ => ⟨rfl, rfl, rfl, rfl, rfl, rfl⟩, fun _ _ => ⟨rfl, rfl⟩⟩

/-- Claim C9 (counterexample): a cycle whose health fetch fails still
publishes, but its health field is not null — it carries over the earlier
health value stored in the component state, contradicting the claim that the
health field of such a snapshot is absent/null. -/
theorem health_failure_keeps_previous_health_cex :
    (loadDashboardData (.ok []) (fun _ => .ok []) (.error healthDownMsg)
        statePrevHealth).error = none ∧
    (loadDashboardData (.ok []) (fun _ => .ok []) (.error healthDownMsg)
        statePrevHealth).healthStatus = some healthPrev ∧
    (loadDashboardData (.ok []) (fun _ => .ok []) (.error healthDownMsg)
        statePrevHealth).healthStatus ≠ none := by
  refine ⟨rfl, rfl, ?_⟩
  intro h
  exact Option.noConfusion h

/-- Claim C9 (amended): if the health fetch of a cycle fails, the cycle still
publishes its snapshot (the cycle does not fail: error is cleared), and the
health field retains whatever value the component state already held — it is
null only when no earlier cycle had stored a health value. -/
theorem health_failure_retains_previous_health
    (agentsData : List Agent) (ft : String → Except String (List Task))
    (e : String) (s : DashboardState) :
    (loadDashboardData (.ok agentsData) ft (.error e) s).error = none ∧
    (loadDashboardData (.ok agentsData) ft (.error e) s).healthStatus = s.healthStatus :=
  ⟨rfl, rfl⟩

/-- Claim C10: when the fetched agent set is empty the cycle still publishes a
snapshot whose six counters are all zero and whose recent-task list is empty. -/
theorem empty_agent_set_zero_counters
    (ft : String → Except String (List Task)) (fh : Except String HealthStatus)
    (s : DashboardState) :
    (loadDashboardData (.ok []) ft fh s).stats = ⟨0, 0, 0, 0, 0, 0⟩ ∧
    (loadDashboardData (.ok []) ft fh s).recentTasks = [] ∧
    (loadDashboardData (.ok []) ft fh s).error = none :=
  ⟨rfl, rfl, rfl⟩

namespace WebSocketService

theorem applyOps_subs (topic : String) :
    ∀ (ops : List RegOp) (reg : Registry), ops.all isSub = true →
      ∃ ext, applyOps ops reg topic = reg topic ++ ext := by
  intro ops
  induction ops with
  | nil => intro reg _; exact ⟨[], by simp [applyOps]⟩
  | cons op ops ih =>
    intro reg hall
    rw [List.all_cons, Bool.and_eq_true] at hall
    obtain ⟨hop, hops⟩ := hall
    cases op with
    | unsub t c => simp [isSub] at hop
    | sub t c =>
      obtain ⟨ext, hext⟩ :=
        ih (applyOp reg (RegOp.sub t c)) hops
      rw [show applyOps (RegOp.sub t c :: ops) reg
            = applyOps ops (applyOp reg (RegOp.sub t c)) from rfl]
      rw [hext]
      by_cases ht : topic = t
      · subst ht
        exact ⟨c :: ext, by simp [applyOp, subscribe]⟩
      · exact ⟨ext, by simp [applyOp, subscribe, ht]⟩

theorem dispatchLoop_subs_only (beh : Nat → CbBeh) (topic : String) (l : List Nat)
    (hl : ∀ c ∈ l, subsOnly (beh c) = true) :
    ∀ (fuel k : Nat) (reg : Registry) (invoked : List Nat) (ext : List Nat),
      reg topic = l ++ ext →
      k + fuel = l.length →
      ∃ regF, dispatchLoop beh topic fuel k reg invoked =
        ⟨regF, invoked ++ l.drop k, false⟩ := by
  intro fuel
  induction fuel with
  | zero =>
    intro k reg invoked ext hreg hk
    have hkl : k = l.length := by omega
    subst hkl
    exact ⟨reg, by simp [dispatchLoop, List.drop_length]⟩
  | succ fuel ih =>
    intro k reg invoked ext hreg hk
    have hkl : k < l.length := by omega
    have h : k < (reg topic).length := by
      rw [hreg, List.length_append]; omega
    have e3 : (reg topic).drop k = (reg topic).get ⟨k, h⟩ :: (reg topic).drop (k + 1) := by
      rw [List.drop_eq_getElem_cons h, List.get_eq_getElem]
    have e1 : (reg topic).drop k = l.get ⟨k, hkl⟩ :: (l.drop (k + 1) ++ ext) := by
      rw [hreg, List.drop_append_of_le_length (le_of_lt hkl),
        List.drop_eq_getElem_cons hkl, List.get_eq_getElem, List.cons_append]
    have e4 := e3.symm.trans e1
    injection e4 with hget hdropk1
    have hsub : (List.all (beh (l.get ⟨k, hkl⟩)).ops isSub && !(beh (l.get ⟨k, hkl⟩)).raises) = true :=
      hl (l.get ⟨k, hkl⟩) (List.get_mem l k hkl)
    rw [Bool.and_eq_true] at hsub
    obtain ⟨hall, hnr0⟩ := hsub
    have hnr : (beh (l.get ⟨k, hkl⟩)).raises = false := by simpa using hnr0
    obtain ⟨ext1, hext1⟩ := applyOps_subs topic (beh (l.get ⟨k, hkl⟩)).ops reg hall
    obtain ⟨regF, hF⟩ :=
      ih (k + 1) (applyOps (beh (l.get ⟨k, hkl⟩)).ops reg) (invoked ++ [l.get ⟨k, hkl⟩])
        (ext ++ ext1)
        (by rw [hext1, hreg, List.append_assoc]) (by omega)
    refine ⟨regF, ?_⟩
    simp only [dispatchLoop]
    rw [dif_pos h, hget, hnr]
    simp only [Bool.false_eq_true, if_false]
    rw [hF]
    have hdk : l.drop k = l.get ⟨k, hkl⟩ :: l.drop (k + 1) := by
      rw [List.drop_eq_getElem_cons hkl, List.get_eq_getElem]
    rw [hdk]
    simp

theorem dispatchLoop_raise (beh : Nat → CbBeh) (topic : String) (c : Nat)
    (hc : (beh c).raises = true) :
    ∀ (l1 : List Nat), (∀ d ∈ l1, subsOnly (beh d) = true) →
    ∀ (fuel k : Nat) (reg : Registry) (invoked : List Nat) (rest : List Nat),
      (reg topic).drop k = l1 ++ c :: rest →
      l1.length < fuel →
      ∃ regF, dispatchLoop beh topic fuel k reg invoked =
        ⟨regF, invoked ++ l1 ++ [c], true⟩ := by
  intro l1
  induction l1 with
  | nil =>
    intro _ fuel k reg invoked rest hdrop hfuel
    match fuel, hfuel with
    | fuel + 1, _ =>
      rw [List.nil_append] at hdrop
      have h : k < (reg topic).length := by
        by_contra hcon
        rw [List.drop_eq_nil_of_le (le_of_not_lt hcon)] at hdrop
        exact List.cons_ne_nil c rest hdrop.symm
      have e3 : (reg topic).drop k
          = (reg topic).get ⟨k, h⟩ :: (reg topic).drop (k + 1) := by
        rw [List.drop_eq_getElem_cons h, List.get_eq_getElem]
      have e4 := e3.symm.trans hdrop
      injection e4 with hget _
      refine ⟨applyOps (beh c).ops reg, ?_⟩
      simp only [dispatchLoop]
      rw [dif_pos h, hget, hc]
      simp
  | cons d l1 ih =>
    intro hpre fuel k reg invoked rest hdrop hfuel
    match fuel, hfuel with
    | fuel + 1, hfuel =>
      rw [List.cons_append] at hdrop
      have h : k < (reg topic).length := by
        by_contra hcon
        rw [List.drop_eq_nil_of_le (le_of_not_lt hcon)] at hdrop
        exact List.cons_ne_nil d (l1 ++ c :: rest) hdrop.symm
      have e3 : (reg topic).drop k
          = (reg topic).get ⟨k, h⟩ :: (reg topic).drop (k + 1) := by
        rw [List.drop_eq_getElem_cons h, List.get_eq_getElem]
      have e4 := e3.symm.trans hdrop
      injection e4 with hget hdropk1
      have hsub : (List.all (beh d).ops isSub && !(beh d).raises) = true :=
        hpre d (List.mem_cons_self d l1)
      rw [Bool.and_eq_true] at hsub
      obtain ⟨hall, hnr0⟩ := hsub
      have hnr : (beh d).raises = false := by simpa using hnr0
      obtain ⟨ext1, hext1⟩ := applyOps_subs topic (beh d).ops reg hall
      have hdropNew : ((applyOps (beh d).ops reg) topic).drop (k + 1)
          = l1 ++ c :: (rest ++ ext1) := by
        rw [hext1, List.drop_append_of_le_length h, hdropk1]
        simp
      have hfuel1 : l1.length < fuel := by
        simp only [List.length_cons] at hfuel
        omega
      obtain ⟨regF, hF⟩ :=
        ih (fun d2 hd2 => hpre d2 (List.mem_cons_of_mem d hd2)) fuel (k + 1)
          (applyOps (beh d).ops reg) (invoked ++ [d]) (rest ++ ext1) hdropNew hfuel1
      refine ⟨regF, ?_⟩
      simp only [dispatchLoop]
      rw [dif_pos h, hget, hnr]
      simp only [Bool.false_eq_true, if_false]
      rw [hF]
      simp

/-- Claim C1 (counterexample): in the trace "caller connects, caller
disconnects, the transport close event fires, the 5000 ms timer elapses",
the instance performs an automatic reconnect — `autoReconnects` ends at 1 and
a transport is attached again with no second explicit `connect()` call —
contradicting the claim that after `disconnect()` no automatic reconnect
attempt ever occurs. -/
theorem disconnect_close_still_reconnects_cex :
    (reconnectTimerFired (closeFired (disconnect (connect initWSWorld)))).autoReconnects = 1 ∧
    (reconnectTimerFired (closeFired (disconnect (connect initWSWorld)))).wsAttached = true ∧
    (reconnectTimerFired (closeFired (disconnect (connect initWSWorld)))).transportsOpened = 2 := by
  decide

/-- Claim C1 (amended): `disconnect()` closes the transport and clears the
reference but cancels no timer and sets no flag, so whenever the close event
of a previously opened socket fires after the disconnect, the `onclose`
handler schedules the 5000 ms reconnect timer, and when that timer elapses
the instance reconnects automatically — an explicit `connect()` call is not
required to re-establish. -/
theorem reconnect_after_disconnect (w : WSWorld) (h : 0 < w.socketsAwaitingClose) :
    (reconnectTimerFired (closeFired (disconnect w))).autoReconnects = w.autoReconnects + 1 ∧
    (reconnectTimerFired (closeFired (disconnect w))).transportsOpened = w.transportsOpened + 1 ∧
    (reconnectTimerFired (closeFired (disconnect w))).wsAttached = true := by
  unfold disconnect closeFired reconnectTimerFired connect
  by_cases hw : w.wsAttached <;> simp [hw, h]

/-- Claim C1 (witness): the amended statement evaluated on the instance that
has connected once. -/
theorem reconnect_after_disconnect_witness :
    (reconnectTimerFired (closeFired (disconnect (connect initWSWorld)))).autoReconnects =
        (connect initWSWorld).autoReconnects + 1 ∧
    (reconnectTimerFired (closeFired (disconnect (connect initWSWorld)))).transportsOpened =
        (connect initWSWorld).transportsOpened + 1 ∧
    (reconnectTimerFired (closeFired (disconnect (connect initWSWorld)))).wsAttached = true :=
  reconnect_after_disconnect (connect initWSWorld) (by decide)

/-- Claim C8 (counterexample): with a transport already attached (the state
reached by a first `connect()`), a second `connect()` is not a no-op — it
constructs a second transport and changes the state — contradicting the claim
that `connect()` is a no-op while Connecting or Connected. -/
theorem connect_when_connected_opens_new_transport_cex :
    (connect initWSWorld).wsAttached = true ∧
    (connect (connect initWSWorld)).transportsOpened = 2 ∧
    connect (connect initWSWorld) ≠ connect initWSWorld := by
  decide

/-- Claim C8 (amended): `connect()` checks no state — from every state,
including one with a transport already attached, it unconditionally opens a
fresh transport (replacing `this.ws` and leaving the old socket's handlers
in place). -/
theorem connect_always_opens_transport (w : WSWorld) :
    (connect w).transportsOpened = w.transportsOpened + 1 ∧
    (connect w).wsAttached = true ∧
    (connect w).socketsAwaitingClose = w.socketsAwaitingClose + 1 :=
  ⟨rfl, rfl, rfl⟩

/-- Claim C2 (counterexample): two callbacks are registered on the topic
before the pass begins, but when the first one unsubscribes itself during the
pass, the second — registered before the pass began — is never invoked in
that pass, contradicting the claim that mutations during dispatch never
affect the current pass. -/
theorem dispatch_unsub_affects_current_pass_cex :
    regSelfUnsub topicAgentStatus = [0, 1] ∧
    (dispatch behSelfUnsub regSelfUnsub topicAgentStatus).invoked = [0] ∧
    (dispatch behSelfUnsub regSelfUnsub topicAgentStatus).errorLogged = false := by
  decide

/-- Claim C2 (amended): a dispatch pass iterates the live callback array, not
a snapshot; as long as no callback unsubscribes (callbacks may subscribe
freely, and none raises) during the pass, the callbacks invoked are exactly
those registered for the topic before the pass began, in registration order —
subscriptions made during the pass take effect only in later dispatches; an
unsubscribe during the pass, however, can affect the current pass. -/
theorem dispatch_subscribe_safe_invokes_pre_pass (beh : Nat → CbBeh) (reg : Registry)
    (topic : String) (hsubs : ∀ c ∈ reg topic, subsOnly (beh c) = true) :
    (dispatch beh reg topic).invoked = reg topic ∧
    (dispatch beh reg topic).errorLogged = false := by
  obtain ⟨regF, hF⟩ :=
    dispatchLoop_subs_only beh topic (reg topic) hsubs (reg topic).length 0 reg [] []
      (by simp) (by simp)
  unfold dispatch
  rw [hF]
  simp

/-- Claim C2 (witness): the amended statement evaluated on a registry with
two harmless callbacks. -/
theorem dispatch_subscribe_safe_invokes_pre_pass_witness :
    (dispatch behHarmless regHarmless topicAgentStatus).invoked =
        regHarmless topicAgentStatus ∧
    (dispatch behHarmless regHarmless topicAgentStatus).errorLogged = false :=
  dispatch_subscribe_safe_invokes_pre_pass behHarmless regHarmless topicAgentStatus
    (by decide)

/-- Claim C3 (counterexample): two callbacks are registered on the topic and
the first raises — the exception is caught and logged, but the second
callback is never invoked in that pass, contradicting the claim that all
remaining callbacks still run. -/
theorem dispatch_raise_skips_rest_cex :
    regFirstRaises topicAgentStatus = [0, 1] ∧
    (dispatch behFirstRaises regFirstRaises topicAgentStatus).invoked = [0] ∧
    (dispatch behFirstRaises regFirstRaises topicAgentStatus).errorLogged = true := by
  decide

/-- Claim C3 (amended): if a callback raises during a dispatch pass (after a
prefix of callbacks that do not unsubscribe or raise), the exception is
caught by the handler's catch block and reported to the diagnostic sink —
it never propagates to the transport layer — but the pass stops at the
raising callback: the callbacks registered after it are not invoked in that
pass. -/
theorem dispatch_raise_caught_stops_pass (beh : Nat → CbBeh) (reg : Registry)
    (topic : String) (l1 : List Nat) (c : Nat) (l2 : List Nat)
    (hsplit : reg topic = l1 ++ c :: l2)
    (hpre : ∀ d ∈ l1, subsOnly (beh d) = true)
    (hc : (beh c).raises = true) :
    (dispatch beh reg topic).invoked = l1 ++ [c] ∧
    (dispatch beh reg topic).errorLogged = true := by
  obtain ⟨regF, hF⟩ :=
    dispatchLoop_raise beh topic c hc l1 hpre (reg topic).length 0 reg [] l2
      (by rw [List.drop_zero, hsplit])
      (by rw [hsplit, List.length_append, List.length_cons]; omega)
  unfold dispatch
  rw [hF]
  simp

/-- Claim C3 (witness): the amended statement evaluated on a registry of
three callbacks whose middle one raises. -/
theorem dispatch_raise_caught_stops_pass_witness :
    (dispatch behMidRaises regMidRaises topicAgentStatus).invoked = [7] ++ [9] ∧
    (dispatch behMidRaises regMidRaises topicAgentStatus).errorLogged = true :=
  dispatch_raise_caught_stops_pass behMidRaises regMidRaises topicAgentStatus
    [7] 9 [8] (by decide) (by decide) (by decide)

end WebSocketService

end AgentPlatform
